import Mathlib

/-
Verification development for the Horizon_View flight sun-geometry engine.
The TypeScript sources are shallowly embedded over the real numbers:
JavaScript numbers become ℝ, the JavaScript remainder operator becomes
jsMod, Math.atan2 becomes jsAtan2 (the argument of a complex number),
and fallible results become Option values.  External collaborators
(the suncalc library position function and the d3 geoInterpolate
factory) are passed as explicit function parameters, since their code
is not part of this repository.
-/

open Real

noncomputable section

/-- Truncation toward zero, the rounding used by the JavaScript remainder
operator on finite doubles. -/
def jsTrunc (r : ℝ) : ℤ := if 0 ≤ r then ⌊r⌋ else ⌈r⌉

/-- The JavaScript remainder operator on finite numbers:
x % y = x - y * trunc (x / y), so the result carries the sign of x. -/
def jsMod (x y : ℝ) : ℝ := x - y * (jsTrunc (x / y) : ℝ)

theorem jsTrunc_nonneg_eq_floor {r : ℝ} (h : 0 ≤ r) : jsTrunc r = ⌊r⌋ := by
  simp [jsTrunc, h]

theorem jsTrunc_neg_eq_ceil {r : ℝ} (h : r < 0) : jsTrunc r = ⌈r⌉ := by
  simp [jsTrunc, not_le.mpr h]

/-- For a positive modulus, the JavaScript remainder of a nonnegative number
lies in the interval from zero (inclusive) to the modulus (exclusive). -/
theorem jsMod_nonneg_bounds {x y : ℝ} (hx : 0 ≤ x) (hy : 0 < y) :
    0 ≤ jsMod x y ∧ jsMod x y < y := by
  have hq : (0 : ℝ) ≤ x / y := div_nonneg hx hy.le
  have hfl : jsTrunc (x / y) = ⌊x / y⌋ := jsTrunc_nonneg_eq_floor hq
  constructor
  · have h1 : (⌊x / y⌋ : ℝ) ≤ x / y := Int.floor_le _
    have h2 : y * (⌊x / y⌋ : ℝ) ≤ y * (x / y) := by
      exact mul_le_mul_of_nonneg_left h1 hy.le
    have h3 : y * (x / y) = x := by field_simp
    simp only [jsMod, hfl]
    linarith
  · have h1 : x / y - 1 < (⌊x / y⌋ : ℝ) := Int.sub_one_lt_floor _
    have h2 : y * (x / y - 1) < y * (⌊x / y⌋ : ℝ) := by
      exact mul_lt_mul_of_pos_left h1 hy
    have h3 : y * (x / y) = x := by field_simp
    simp only [jsMod, hfl]
    nlinarith

/-- For a positive modulus, the JavaScript remainder always lies strictly
between the negated modulus and the modulus. -/
theorem jsMod_bounds {x y : ℝ} (hy : 0 < y) :
    -y < jsMod x y ∧ jsMod x y < y := by
  rcases le_or_lt 0 x with hx | hx
  · have h := jsMod_nonneg_bounds hx hy
    exact ⟨by linarith [h.1], h.2⟩
  · have hq : x / y < 0 := div_neg_of_neg_of_pos hx hy
    have hcl : jsTrunc (x / y) = ⌈x / y⌉ := jsTrunc_neg_eq_ceil hq
    have h1 : x / y ≤ (⌈x / y⌉ : ℝ) := Int.le_ceil _
    have h2 : (⌈x / y⌉ : ℝ) < x / y + 1 := Int.ceil_lt_add_one _
    have h3 : y * (x / y) = x := by field_simp
    constructor
    · have h4 : y * (⌈x / y⌉ : ℝ) < y * (x / y + 1) := mul_lt_mul_of_pos_left h2 hy
      simp only [jsMod, hcl]
      nlinarith
    · have h4 : y * (x / y) ≤ y * (⌈x / y⌉ : ℝ) := mul_le_mul_of_nonneg_left h1 hy.le
      simp only [jsMod, hcl]
      nlinarith

/-- Relative angle between the sun azimuth and the flight bearing, from
calculateSunRelativeAngle in src/src/lib/sun.ts (lines 117 to 130).
Positive means the sun is to the right, negative to the left. -/
def calculateSunRelativeAngle (flightBearing sunAzimuth : ℝ) : ℝ :=
  let normalizedFlight := jsMod (jsMod flightBearing 360 + 360) 360
  let normalizedSun := jsMod (jsMod sunAzimuth 360 + 360) 360
  let r1 := normalizedSun - normalizedFlight
  let r2 := if r1 > 180 then r1 - 360 else r1
  if r2 < -180 then r2 + 360 else r2

/-- The double-remainder normalization used by calculateSunRelativeAngle
maps any real number into the interval from 0 (inclusive) to 360
(exclusive). -/
theorem doubleMod_mem {x : ℝ} :
    0 ≤ jsMod (jsMod x 360 + 360) 360 ∧ jsMod (jsMod x 360 + 360) 360 < 360 := by
  have h360 : (0 : ℝ) < 360 := by norm_num
  have h1 := jsMod_bounds (x := x) h360
  have h2 : 0 ≤ jsMod x 360 + 360 := by linarith [h1.1]
  exact jsMod_nonneg_bounds h2 h360

/-- Seat side classification, from determineScenicSideFromTrajectory in
src/src/lib/sun.ts (lines 135 to 147). -/
inductive ScenicSide where
  | left
  | right
  | both
  | none
  deriving DecidableEq

/-- Reduce a trajectory of relative sun angles to a scenic side, with the
fixed threshold of 5 degrees, mirroring the source line by line. -/
def determineScenicSideFromTrajectory (relativeAngles : List ℝ) : ScenicSide :=
  let hasLeft := relativeAngles.any fun a => decide (a < -(5 : ℝ))
  let hasRight := relativeAngles.any fun a => decide ((5 : ℝ) < a)
  if hasLeft && hasRight then ScenicSide.both
  else if hasRight then ScenicSide.right
  else if hasLeft then ScenicSide.left
  else ScenicSide.both

/-- Recommended window seats, from getRecommendedSeats in
src/src/lib/sun.ts (lines 159 to 175).  The switch has explicit cases for
left, right and both, and a default branch returning the empty list. -/
def getRecommendedSeats (scenicSide : ScenicSide) : List String :=
  match scenicSide with
  | ScenicSide.left => ["A"]
  | ScenicSide.right => ["F"]
  | ScenicSide.both => ["A", "F"]
  | ScenicSide.none => []

/-- Math.atan2 on finite inputs, embedded as the principal argument of the
complex number with real part x and imaginary part y. -/
def jsAtan2 (y x : ℝ) : ℝ := Complex.arg ⟨x, y⟩

/-- The intermediate quantity a of the Haversine formula, from
haversineDistance in src/unnamed/part_002 (lines 348 to 367). -/
def haversineA (lat1 lng1 lat2 lng2 : ℝ) : ℝ :=
  Real.sin ((lat2 - lat1) * π / 180 / 2) * Real.sin ((lat2 - lat1) * π / 180 / 2) +
    Real.cos (lat1 * π / 180) * Real.cos (lat2 * π / 180) *
      (Real.sin ((lng2 - lng1) * π / 180 / 2) * Real.sin ((lng2 - lng1) * π / 180 / 2))

/-- Haversine great-circle distance in kilometres, from haversineDistance in
src/unnamed/part_002 (lines 348 to 367). -/
def haversineDistance (lat1 lng1 lat2 lng2 : ℝ) : ℝ :=
  6371 * (2 * jsAtan2 (Real.sqrt (haversineA lat1 lng1 lat2 lng2))
    (Real.sqrt (1 - haversineA lat1 lng1 lat2 lng2)))

theorem haversineA_symm (lat1 lng1 lat2 lng2 : ℝ) :
    haversineA lat1 lng1 lat2 lng2 = haversineA lat2 lng2 lat1 lng1 := by
  have key : ∀ u v : ℝ,
      Real.sin ((u - v) * π / 180 / 2) * Real.sin ((u - v) * π / 180 / 2) =
      Real.sin ((v - u) * π / 180 / 2) * Real.sin ((v - u) * π / 180 / 2) := by
    intro u v
    have h : (u - v) * π / 180 / 2 = -((v - u) * π / 180 / 2) := by ring
    rw [h, Real.sin_neg]
    ring
  unfold haversineA
  rw [key lat2 lat1, key lng2 lng1, mul_comm (Real.cos (lat1 * π / 180)) (Real.cos (lat2 * π / 180))]

/-- Initial bearing from one coordinate to another, from calculateBearing in
src/unnamed/part_002 (lines 377 to 391). -/
def calculateBearing (lat1 lng1 lat2 lng2 : ℝ) : ℝ :=
  let dLng := (lng2 - lng1) * π / 180
  let y := Real.sin dLng * Real.cos (lat2 * π / 180)
  let x := Real.cos (lat1 * π / 180) * Real.sin (lat2 * π / 180) -
    Real.sin (lat1 * π / 180) * Real.cos (lat2 * π / 180) * Real.cos dLng
  jsMod (jsAtan2 y x * 180 / π + 360) 360

/-- Great-circle path sampling, from generateGreatCirclePath in
src/unnamed/part_002 (lines 402 to 418).  The d3 geoInterpolate factory is
an external library and is therefore passed as a function parameter; the
loop runs i from 0 up to and including numPoints, so the returned list has
numPoints + 1 entries at fractions i / numPoints. -/
def generateGreatCirclePath (geoInterp : ℝ × ℝ → ℝ × ℝ → ℝ → ℝ × ℝ)
    (startLat startLng endLat endLng : ℝ) (numPoints : ℕ) : List (ℝ × ℝ) :=
  (List.range (numPoints + 1)).map fun (i : ℕ) =>
    geoInterp (startLng, startLat) (endLng, endLat) ((i : ℝ) / (numPoints : ℝ))

/-- Leap year test of the proleptic Gregorian calendar, as implemented by the
JavaScript Date runtime that the source relies on. -/
def isLeap (y : ℤ) : Bool :=
  y % 4 == 0 && (y % 100 != 0 || y % 400 == 0)

/-- Civil date (year, month, day) of a day count since 1970-01-01, the
standard civil-from-days conversion used to model the JavaScript Date
calendar (the deployment runs with a UTC clock, so local and UTC calendar
fields coincide). -/
def civilFromDays (z0 : ℤ) : ℤ × ℤ × ℤ :=
  let z := z0 + 719468
  let era := Int.fdiv z 146097
  let doe := z - era * 146097
  let yoe := (doe - doe / 1460 + doe / 36524 - doe / 146096) / 365
  let y := yoe + era * 400
  let doy := doe - (365 * yoe + yoe / 4 - yoe / 100)
  let mp := (5 * doy + 2) / 153
  let d := doy - (153 * mp + 2) / 5 + 1
  let m := mp + (if mp < 10 then 3 else -9)
  (if m ≤ 2 then y + 1 else y, m, d)

/-- Day count since 1970-01-01 of a civil date, inverse of civilFromDays. -/
def daysFromCivil (y m d : ℤ) : ℤ :=
  let y2 := if m ≤ 2 then y - 1 else y
  let era := Int.fdiv y2 400
  let yoe := y2 - era * 400
  let mp := (m + 9) % 12
  let doy := (153 * mp + 2) / 5 + d - 1
  let doe := yoe * 365 + yoe / 4 - yoe / 100 + doy
  era * 146097 + doe - 719468

/-- Calendar triple (year, month, day) of an epoch-millisecond instant,
modelling the getFullYear, getMonth and getDate accessors of a JavaScript
Date under a UTC clock. -/
def calcDateTriple (ms : ℝ) : ℤ × ℤ × ℤ := civilFromDays ⌊ms / 86400000⌋

/-- Day of month of an epoch-millisecond instant, modelling
Date.prototype.getDate under a UTC clock. -/
def getDate (ms : ℝ) : ℤ := (calcDateTriple ms).2.2

/-- Days in the year strictly before the given month (1-based), in a
non-leap year. -/
def daysBeforeMonth (m : ℤ) : ℤ :=
  if m ≤ 1 then 0 else if m = 2 then 31 else if m = 3 then 59 else if m = 4 then 90
  else if m = 5 then 120 else if m = 6 then 151 else if m = 7 then 181 else if m = 8 then 212
  else if m = 9 then 243 else if m = 10 then 273 else if m = 11 then 304 else 334

/-- Day of year of a civil date, with January 1 as day 1.  This models the
dayOfYear helper inside calculateSunriseSunset (src/src/lib/sun.ts lines 33
to 37), which computes the same value by flooring the millisecond distance
from December 31 of the previous year. -/
def dayOfYear (y m d : ℤ) : ℤ :=
  daysBeforeMonth m + (if 2 < m ∧ isLeap y = true then 1 else 0) + d

/-- Mean anomaly M of the NOAA simplified sunrise equation, from sunTime in
src/src/lib/sun.ts (line 46). -/
def sunM (t : ℝ) : ℝ := 0.9856 * t - 3.289

/-- True longitude L of the sun, normalized into the interval from 0 to
360, from sunTime in src/src/lib/sun.ts (lines 48 to 53). -/
def sunL (t : ℝ) : ℝ :=
  let L0 := sunM t + 1.916 * Real.sin (sunM t * π / 180) +
    0.02 * Real.sin (2 * sunM t * π / 180) + 282.634
  let L1 := jsMod L0 360
  if L1 < 0 then L1 + 360 else L1

/-- Right ascension in hours with quadrant correction, from sunTime in
src/src/lib/sun.ts (lines 55 to 62). -/
def sunRA (t : ℝ) : ℝ :=
  let RA0 := Real.arctan (0.91764 * Real.tan (sunL t * π / 180)) * 180 / π
  let RA1 := jsMod RA0 360
  let RA2 := if RA1 < 0 then RA1 + 360 else RA1
  let Lquadrant := (⌊sunL t / 90⌋ : ℝ) * 90
  let RAquadrant := (⌊RA2 / 90⌋ : ℝ) * 90
  (RA2 + (Lquadrant - RAquadrant)) / 15

/-- Sine of the solar declination, from sunTime in src/src/lib/sun.ts
(line 64). -/
def sunSinDec (t : ℝ) : ℝ := 0.39782 * Real.sin (sunL t * π / 180)

/-- Cosine of the solar declination, from sunTime in src/src/lib/sun.ts
(line 65). -/
def sunCosDec (t : ℝ) : ℝ := Real.cos (Real.arcsin (sunSinDec t))

/-- Cosine of the solar hour angle at the official zenith 90.833 degrees,
from sunTime in src/src/lib/sun.ts (lines 67 to 69).  The sunrise or
sunset computation returns null exactly when this quantity falls outside
the closed interval from -1 to 1. -/
def sunCosH (lat t : ℝ) : ℝ :=
  (Real.cos (90.833 * π / 180) - sunSinDec t * Real.sin (lat * π / 180)) /
    (sunCosDec t * Real.cos (lat * π / 180))

/-- Local mean time of the event converted to UT hours in the interval from
0 to 24, from sunTime in src/src/lib/sun.ts (lines 74 to 82). -/
def sunTimeUT (lat lon t : ℝ) (isRise : Bool) : ℝ :=
  let H0 := Real.arccos (sunCosH lat t) * 180 / π
  let H1 := if isRise then 360 - H0 else H0
  let H := H1 / 15
  let T := H + sunRA t - 0.06571 * t - 6.622
  let UT0 := T - lon / 15
  let UT1 := jsMod (UT0 + 24) 24
  if UT1 < 0 then UT1 + 24 else UT1

/-- One sunrise or sunset computation, from the inner sunTime function of
calculateSunriseSunset in src/src/lib/sun.ts (lines 45 to 89).  Returns
null when the hour-angle cosine exceeds 1 (sun never rises) or is below -1
(sun never sets); otherwise builds a UTC instant from the calendar fields
of the input date and the floored hour, minute and second of the UT value. -/
def sunTime (lat lon : ℝ) (y m d : ℤ) (t : ℝ) (isRise : Bool) : Option ℝ :=
  if 1 < sunCosH lat t then Option.none
  else if sunCosH lat t < -1 then Option.none
  else
    let UT := sunTimeUT lat lon t isRise
    let hour := ⌊UT⌋
    let mn := ⌊(UT - (hour : ℝ)) * 60⌋
    let sec := ⌊((UT - (hour : ℝ)) * 60 - (mn : ℝ)) * 60⌋
    some ((daysFromCivil y m d * 86400000 + hour * 3600000 + mn * 60000 + sec * 1000 : ℤ) : ℝ)

/-- Sunrise and sunset instants at a location and date; null fields signal
polar day or polar night. -/
structure SunTimes where
  sunrise : Option ℝ
  sunset : Option ℝ

/-- Event day fraction for sunrise, from calculateSunriseSunset in
src/src/lib/sun.ts (line 42). -/
def sunTRise (lon ms : ℝ) : ℝ :=
  let c := calcDateTriple ms
  ((dayOfYear c.1 c.2.1 c.2.2 : ℤ) : ℝ) + (6 - lon / 15) / 24

/-- Event day fraction for sunset, from calculateSunriseSunset in
src/src/lib/sun.ts (line 43). -/
def sunTSet (lon ms : ℝ) : ℝ :=
  let c := calcDateTriple ms
  ((dayOfYear c.1 c.2.1 c.2.2 : ℤ) : ℝ) + (18 - lon / 15) / 24

/-- Sunrise and sunset via the closed-form solar approximation, from
calculateSunriseSunset in src/src/lib/sun.ts (lines 26 to 95).  The date
argument is the epoch-millisecond instant of the query. -/
def calculateSunriseSunset (lat lon ms : ℝ) : SunTimes :=
  ⟨sunTime lat lon (calcDateTriple ms).1 (calcDateTriple ms).2.1 (calcDateTriple ms).2.2
      (sunTRise lon ms) true,
   sunTime lat lon (calcDateTriple ms).1 (calcDateTriple ms).2.1 (calcDateTriple ms).2.2
      (sunTSet lon ms) false⟩

/-- Solar position in degrees: compass azimuth and altitude above the
horizon. -/
structure SunPosition where
  azimuth : ℝ
  altitude : ℝ

/-- Aggregate result of the flight sun computation, from the FlightSunData
interface in src/src/lib/sun.ts (lines 10 to 17).  Times are epoch
milliseconds. -/
structure FlightSunData where
  departureSun : SunPosition
  arrivalSun : SunPosition
  scenicSide : ScenicSide
  sunriseTime : ℝ
  sunsetTime : ℝ
  flightDuration : ℝ

/-- Sun position at an instant and location, from getSunPosition in
src/src/lib/sun.ts (lines 100 to 110).  The suncalc library is an external
dependency, so its raw position function (returning azimuth and altitude in
radians) is a parameter; the wrapper converts to degrees and shifts the
azimuth into the clockwise-from-north convention. -/
def getSunPosition (suncalc : ℝ → ℝ → ℝ → ℝ × ℝ) (date lat lng : ℝ) : SunPosition :=
  let pos := suncalc date lat lng
  let az0 := jsMod (pos.1 * 180 / π + 180) 360
  ⟨if az0 < 0 then az0 + 360 else az0, pos.2 * 180 / π⟩

/-- The conditional override of a reported sunrise or sunset: replace the
current value by the candidate event when the candidate exists and lies
strictly between the two given instants, from calculateFlightSunData in
src/src/lib/sun.ts (lines 217 to 247). -/
def overrideIfBetween (current : ℝ) (cand : Option ℝ) (lo hi : ℝ) : ℝ :=
  match cand with
  | some t => if lo < t ∧ t < hi then t else current
  | Option.none => current

/-- Selection of the reported sunrise and sunset times, from
calculateFlightSunData in src/src/lib/sun.ts (lines 214 to 247): the
departure values (or the departure instant when null) are the defaults;
when the day of month of the arrival instant differs from that of the
departure instant, the arrival events may override, otherwise the
departure events are re-examined (a no-op). -/
def selectSunTimes (depTimes arrTimes : SunTimes) (departureTime arrivalTime : ℝ) : ℝ × ℝ :=
  let sunrise0 := depTimes.sunrise.getD departureTime
  let sunset0 := depTimes.sunset.getD departureTime
  if getDate arrivalTime ≠ getDate departureTime then
    (overrideIfBetween sunrise0 arrTimes.sunrise departureTime arrivalTime,
      overrideIfBetween sunset0 arrTimes.sunset departureTime arrivalTime)
  else
    (overrideIfBetween sunrise0 depTimes.sunrise departureTime arrivalTime,
      overrideIfBetween sunset0 depTimes.sunset departureTime arrivalTime)

/-- One loop iteration of the sample collection in calculateFlightSunData
(src/src/lib/sun.ts lines 259 to 278): the sun position and segment bearing
at path point i, kept only when the altitude clears the civil twilight
threshold of -6 degrees. -/
def flightSample (suncalc : ℝ → ℝ → ℝ → ℝ × ℝ)
    (geoInterp : ℝ × ℝ → ℝ × ℝ → ℝ → ℝ × ℝ)
    (departureLat departureLng arrivalLat arrivalLng departureTime flightDuration : ℝ)
    (i : ℕ) : Option (ℝ × ℝ × ℝ) :=
  let pathPoints :=
    generateGreatCirclePath geoInterp departureLat departureLng arrivalLat arrivalLng 20
  let p := pathPoints.getD i (0, 0)
  let q := pathPoints.getD (i + 1) (0, 0)
  let progress := (i : ℝ) / ((pathPoints.length : ℝ) - 1)
  let currentTime := departureTime + flightDuration * progress * 60 * 60 * 1000
  let sunPos := getSunPosition suncalc currentTime p.2 p.1
  let bearing := calculateBearing p.2 p.1 q.2 q.1
  if -6 < sunPos.altitude then some (sunPos.azimuth, sunPos.altitude, bearing)
  else Option.none

/-- The visible samples gathered by the path loop of
calculateFlightSunData (src/src/lib/sun.ts lines 257 to 278). -/
def flightVisibleBase (suncalc : ℝ → ℝ → ℝ → ℝ × ℝ)
    (geoInterp : ℝ × ℝ → ℝ × ℝ → ℝ → ℝ × ℝ)
    (departureLat departureLng arrivalLat arrivalLng departureTime flightDuration : ℝ) :
    List (ℝ × ℝ × ℝ) :=
  let pathPoints :=
    generateGreatCirclePath geoInterp departureLat departureLng arrivalLat arrivalLng 20
  (List.range (pathPoints.length - 1)).filterMap
    (flightSample suncalc geoInterp departureLat departureLng arrivalLat arrivalLng
      departureTime flightDuration)

/-- The list of visible sun samples along the flight, from
calculateFlightSunData in src/src/lib/sun.ts (lines 249 to 291): one
sample per path segment, filtered at the civil twilight threshold of -6
degrees, followed by the arrival sample when the arrival sun is above the
threshold. -/
def flightVisiblePositions (suncalc : ℝ → ℝ → ℝ → ℝ × ℝ)
    (geoInterp : ℝ × ℝ → ℝ × ℝ → ℝ → ℝ × ℝ)
    (departureLat departureLng arrivalLat arrivalLng departureTime flightDuration : ℝ) :
    List (ℝ × ℝ × ℝ) :=
  let base := flightVisibleBase suncalc geoInterp departureLat departureLng arrivalLat
    arrivalLng departureTime flightDuration
  let arrivalTime := departureTime + flightDuration * 60 * 60 * 1000
  let arrivalSun := getSunPosition suncalc arrivalTime arrivalLat arrivalLng
  if -6 < arrivalSun.altitude then
    base ++ [(arrivalSun.azimuth, arrivalSun.altitude,
      match base.getLast? with
      | some v => v.2.2
      | Option.none => calculateBearing departureLat departureLng arrivalLat arrivalLng)]
  else base

/-- The main orchestrator, from calculateFlightSunData in
src/src/lib/sun.ts (lines 196 to 318).  The suncalc position function and
the d3 geoInterpolate factory are external dependencies passed as
parameters; everything else follows the source line by line. -/
def calculateFlightSunData (suncalc : ℝ → ℝ → ℝ → ℝ × ℝ)
    (geoInterp : ℝ × ℝ → ℝ × ℝ → ℝ → ℝ × ℝ)
    (departureLat departureLng arrivalLat arrivalLng departureTime flightDuration : ℝ) :
    FlightSunData :=
  let departureSun := getSunPosition suncalc departureTime departureLat departureLng
  let arrivalTime := departureTime + flightDuration * 60 * 60 * 1000
  let arrivalSun := getSunPosition suncalc arrivalTime arrivalLat arrivalLng
  let departureTimes := calculateSunriseSunset departureLat departureLng departureTime
  let arrivalTimes := calculateSunriseSunset arrivalLat arrivalLng arrivalTime
  let st := selectSunTimes departureTimes arrivalTimes departureTime arrivalTime
  let visible := flightVisiblePositions suncalc geoInterp departureLat departureLng
    arrivalLat arrivalLng departureTime flightDuration
  if visible = [] then
    ⟨departureSun, arrivalSun, ScenicSide.none, st.1, st.2, flightDuration⟩
  else
    ⟨departureSun, arrivalSun,
      determineScenicSideFromTrajectory
        (visible.map fun pos => calculateSunRelativeAngle pos.2.2 pos.1),
      st.1, st.2, flightDuration⟩

/-- Altitude of the sun at the i-th path sample of the flight, the quantity
tested against the civil twilight threshold by calculateFlightSunData. -/
def flightSampleAltitude (suncalc : ℝ → ℝ → ℝ → ℝ × ℝ)
    (geoInterp : ℝ × ℝ → ℝ × ℝ → ℝ → ℝ × ℝ)
    (departureLat departureLng arrivalLat arrivalLng departureTime flightDuration : ℝ)
    (i : ℕ) : ℝ :=
  let pathPoints :=
    generateGreatCirclePath geoInterp departureLat departureLng arrivalLat arrivalLng 20
  let p := pathPoints.getD i (0, 0)
  let progress := (i : ℝ) / ((pathPoints.length : ℝ) - 1)
  (getSunPosition suncalc (departureTime + flightDuration * progress * 60 * 60 * 1000)
    p.2 p.1).altitude

/-- Evaluate jsMod from an explicit floor value of the quotient. -/
theorem jsMod_eq_of_floor {x y : ℝ} (k : ℤ) (hq : 0 ≤ x / y)
    (hk : (k : ℝ) ≤ x / y) (hk2 : x / y < k + 1) : jsMod x y = x - y * k := by
  have hfl : ⌊x / y⌋ = k := Int.floor_eq_iff.mpr ⟨hk, by exact_mod_cast hk2⟩
  unfold jsMod
  rw [jsTrunc_nonneg_eq_floor hq, hfl]

/-- C1.  The claim says generateGreatCirclePath with numPoints = n returns
exactly n points with the arrival coordinate at index n - 1.  The source
loop runs i from 0 through numPoints inclusive, so the code returns n + 1
points with the arrival coordinate at index n, contradicting the functions
own doc comment (numPoints is documented as the number of points to
generate).  At the failing input numPoints = 2 the code produces three
points; the element at index 1 is the midpoint, not the arrival. -/
theorem generateGreatCirclePath_offByOne :
    (∀ (f : ℝ × ℝ → ℝ × ℝ → ℝ → ℝ × ℝ) (a b c d : ℝ) (n : ℕ),
      (generateGreatCirclePath f a b c d n).length = n + 1) ∧
    generateGreatCirclePath (fun _ _ t => (t, t)) 0 0 0 0 2 =
      [(0, 0), (1 / 2, 1 / 2), (1, 1)] := by
  constructor
  · intro f a b c d n
    unfold generateGreatCirclePath
    rw [List.length_map, List.length_range]
  · unfold generateGreatCirclePath
    rw [List.range_succ, List.range_succ, List.range_succ, List.range_zero]
    simp only [List.nil_append, List.cons_append, List.map_cons, List.map_nil,
      List.singleton_append]
    norm_num

/-- C4.  The trajectory reduction with threshold 5 classifies both when the
set of angles below -5 and the set above 5 are both nonempty or both empty,
right when only angles above 5 occur, left when only angles below -5 occur,
and it never returns none. -/
theorem determineScenicSideFromTrajectory_cases (l : List ℝ) :
    (determineScenicSideFromTrajectory l = ScenicSide.both ↔
      ((∃ a ∈ l, a < -5) ↔ (∃ a ∈ l, 5 < a))) ∧
    (determineScenicSideFromTrajectory l = ScenicSide.right ↔
      ((∃ a ∈ l, 5 < a) ∧ ¬ ∃ a ∈ l, a < -5)) ∧
    (determineScenicSideFromTrajectory l = ScenicSide.left ↔
      ((∃ a ∈ l, a < -5) ∧ ¬ ∃ a ∈ l, 5 < a)) ∧
    determineScenicSideFromTrajectory l ≠ ScenicSide.none := by
  have anyL : ((l.any fun a => decide (a < -(5 : ℝ))) = true) ↔ ∃ a ∈ l, a < -5 := by
    simp
  have anyR : ((l.any fun a => decide ((5 : ℝ) < a)) = true) ↔ ∃ a ∈ l, 5 < a := by
    simp
  have falseL : ¬ (∃ a ∈ l, a < -5) → (l.any fun a => decide (a < -(5 : ℝ))) = false := by
    intro hn
    rw [List.any_eq_false]
    intro a ha
    simp only [decide_eq_true_eq]
    exact fun h => hn ⟨a, ha, h⟩
  have falseR : ¬ (∃ a ∈ l, 5 < a) → (l.any fun a => decide ((5 : ℝ) < a)) = false := by
    intro hn
    rw [List.any_eq_false]
    intro a ha
    simp only [decide_eq_true_eq]
    exact fun h => hn ⟨a, ha, h⟩
  by_cases hl : ∃ a ∈ l, a < -5 <;> by_cases hr : ∃ a ∈ l, 5 < a
  · have hres : determineScenicSideFromTrajectory l = ScenicSide.both := by
      unfold determineScenicSideFromTrajectory
      rw [anyL.mpr hl, anyR.mpr hr]
      rfl
    simp [hres, hl, hr]
  · have hres : determineScenicSideFromTrajectory l = ScenicSide.left := by
      unfold determineScenicSideFromTrajectory
      rw [anyL.mpr hl, falseR hr]
      rfl
    simp [hres, hl, hr]
  · have hres : determineScenicSideFromTrajectory l = ScenicSide.right := by
      unfold determineScenicSideFromTrajectory
      rw [falseL hl, anyR.mpr hr]
      rfl
    simp [hres, hl, hr]
  · have hres : determineScenicSideFromTrajectory l = ScenicSide.both := by
      unfold determineScenicSideFromTrajectory
      rw [falseL hl, falseR hr]
      rfl
    simp [hres, hl, hr]

/-- Witness for C4: a trajectory with angles on both sides of the
threshold is classified both. -/
theorem determineScenicSideFromTrajectory_cases_witness :
    determineScenicSideFromTrajectory [10, -10] = ScenicSide.both :=
  ((determineScenicSideFromTrajectory_cases [10, -10]).1).mpr
    (iff_of_true ⟨-10, by simp, by norm_num⟩ ⟨10, by simp, by norm_num⟩)

/-- C5 counterexample.  At flightBearing 180 and sunAzimuth 0 the relative
angle is exactly -180, so the result is not in the half-open interval from
-180 exclusive to 180 inclusive that the claim states. -/
theorem calculateSunRelativeAngle_atBoundary :
    calculateSunRelativeAngle 180 0 = -180 := by
  have e1 : jsMod (180 : ℝ) 360 = 180 := by
    rw [jsMod_eq_of_floor 0 (by norm_num) (by norm_num) (by norm_num)]
    norm_num
  have e2 : jsMod (180 + 360 : ℝ) 360 = 180 := by
    rw [jsMod_eq_of_floor 1 (by norm_num) (by norm_num) (by norm_num)]
    norm_num
  have e3 : jsMod (0 : ℝ) 360 = 0 := by
    rw [jsMod_eq_of_floor 0 (by norm_num) (by norm_num) (by norm_num)]
    norm_num
  have e4 : jsMod (0 + 360 : ℝ) 360 = 0 := by
    rw [jsMod_eq_of_floor 1 (by norm_num) (by norm_num) (by norm_num)]
    norm_num
  simp only [calculateSunRelativeAngle, e1, e3, e2, e4]
  norm_num

/-- C5 as amended.  For all finite inputs the relative angle lies in the
closed interval from -180 to 180; the lower endpoint is attained, as the
counterexample shows. -/
theorem calculateSunRelativeAngle_range (flightBearing sunAzimuth : ℝ) :
    -180 ≤ calculateSunRelativeAngle flightBearing sunAzimuth ∧
    calculateSunRelativeAngle flightBearing sunAzimuth ≤ 180 := by
  obtain ⟨hf0, hf1⟩ := doubleMod_mem (x := flightBearing)
  obtain ⟨hs0, hs1⟩ := doubleMod_mem (x := sunAzimuth)
  simp only [calculateSunRelativeAngle]
  split_ifs <;> constructor <;> linarith

/-- C8.  The seat mapping is total over the four scenic sides and returns
exactly the four listed values and nothing else. -/
theorem getRecommendedSeats_total :
    getRecommendedSeats ScenicSide.none = [] ∧
    getRecommendedSeats ScenicSide.left = ["A"] ∧
    getRecommendedSeats ScenicSide.right = ["F"] ∧
    getRecommendedSeats ScenicSide.both = ["A", "F"] ∧
    ∀ s : ScenicSide,
      getRecommendedSeats s = [] ∨ getRecommendedSeats s = ["A"] ∨
        getRecommendedSeats s = ["F"] ∨ getRecommendedSeats s = ["A", "F"] := by
  refine ⟨rfl, rfl, rfl, rfl, ?_⟩
  intro s
  cases s <;> simp [getRecommendedSeats]

/-- C9.  The Haversine distance is symmetric in its two coordinates. -/
theorem haversineDistance_symm (lat1 lng1 lat2 lng2 : ℝ) :
    haversineDistance lat1 lng1 lat2 lng2 = haversineDistance lat2 lng2 lat1 lng1 := by
  unfold haversineDistance
  rw [haversineA_symm]

theorem determineScenicSideFromTrajectory_ne_none (l : List ℝ) :
    determineScenicSideFromTrajectory l ≠ ScenicSide.none := by
  simp only [determineScenicSideFromTrajectory]
  split_ifs <;> simp

theorem overrideIfBetween_getD (c : Option ℝ) (lo hi : ℝ) :
    overrideIfBetween (c.getD lo) c lo hi = c.getD lo := by
  cases c with
  | none => rfl
  | some t =>
    show (if lo < t ∧ t < hi then t else (some t).getD lo) = (some t).getD lo
    split_ifs <;> simp

theorem selectSunTimes_sameDate (dT aT : SunTimes) (dep arr : ℝ)
    (h : getDate arr = getDate dep) :
    selectSunTimes dT aT dep arr = (dT.sunrise.getD dep, dT.sunset.getD dep) := by
  simp only [selectSunTimes]
  rw [if_neg (show ¬ getDate arr ≠ getDate dep from fun hne => hne h)]
  rw [overrideIfBetween_getD, overrideIfBetween_getD]

theorem selectSunTimes_diffDate (dT aT : SunTimes) (dep arr : ℝ)
    (h : getDate arr ≠ getDate dep) :
    selectSunTimes dT aT dep arr =
      (overrideIfBetween (dT.sunrise.getD dep) aT.sunrise dep arr,
        overrideIfBetween (dT.sunset.getD dep) aT.sunset dep arr) := by
  simp only [selectSunTimes]
  rw [if_pos h]

theorem calculateFlightSunData_sunTimes (suncalc : ℝ → ℝ → ℝ → ℝ × ℝ)
    (geoInterp : ℝ × ℝ → ℝ × ℝ → ℝ → ℝ × ℝ) (dLat dLng aLat aLng depT dur : ℝ) :
    (calculateFlightSunData suncalc geoInterp dLat dLng aLat aLng depT dur).sunriseTime =
      (selectSunTimes (calculateSunriseSunset dLat dLng depT)
        (calculateSunriseSunset aLat aLng (depT + dur * 60 * 60 * 1000)) depT
        (depT + dur * 60 * 60 * 1000)).1 ∧
    (calculateFlightSunData suncalc geoInterp dLat dLng aLat aLng depT dur).sunsetTime =
      (selectSunTimes (calculateSunriseSunset dLat dLng depT)
        (calculateSunriseSunset aLat aLng (depT + dur * 60 * 60 * 1000)) depT
        (depT + dur * 60 * 60 * 1000)).2 := by
  constructor <;>
    · simp only [calculateFlightSunData]
      split_ifs <;> rfl

theorem flightSample_eq_none_iff (suncalc : ℝ → ℝ → ℝ → ℝ × ℝ)
    (geoInterp : ℝ × ℝ → ℝ × ℝ → ℝ → ℝ × ℝ) (dLat dLng aLat aLng depT dur : ℝ) (i : ℕ) :
    flightSample suncalc geoInterp dLat dLng aLat aLng depT dur i = Option.none ↔
      flightSampleAltitude suncalc geoInterp dLat dLng aLat aLng depT dur i ≤ -6 := by
  simp only [flightSample, flightSampleAltitude]
  split_ifs with h
  · exact iff_of_false (by simp) (not_le.mpr h)
  · exact iff_of_true rfl (not_lt.mp h)

theorem flightVisibleBase_eq_nil_iff (suncalc : ℝ → ℝ → ℝ → ℝ × ℝ)
    (geoInterp : ℝ × ℝ → ℝ × ℝ → ℝ → ℝ × ℝ) (dLat dLng aLat aLng depT dur : ℝ) :
    flightVisibleBase suncalc geoInterp dLat dLng aLat aLng depT dur = [] ↔
      ∀ i < 20, flightSampleAltitude suncalc geoInterp dLat dLng aLat aLng depT dur i ≤ -6 := by
  have hlen : (generateGreatCirclePath geoInterp dLat dLng aLat aLng 20).length = 21 := by
    unfold generateGreatCirclePath
    rw [List.length_map, List.length_range]
  simp only [flightVisibleBase, hlen]
  rw [List.filterMap_eq_nil_iff]
  constructor
  · intro h i hi
    exact (flightSample_eq_none_iff suncalc geoInterp dLat dLng aLat aLng depT dur i).mp
      (h i (by simpa using hi))
  · intro h i hi
    exact (flightSample_eq_none_iff suncalc geoInterp dLat dLng aLat aLng depT dur i).mpr
      (h i (by simpa using hi))

theorem flightVisiblePositions_eq_nil_iff (suncalc : ℝ → ℝ → ℝ → ℝ × ℝ)
    (geoInterp : ℝ × ℝ → ℝ × ℝ → ℝ → ℝ × ℝ) (dLat dLng aLat aLng depT dur : ℝ) :
    flightVisiblePositions suncalc geoInterp dLat dLng aLat aLng depT dur = [] ↔
      ((∀ i < 20, flightSampleAltitude suncalc geoInterp dLat dLng aLat aLng depT dur i ≤ -6) ∧
        (getSunPosition suncalc (depT + dur * 60 * 60 * 1000) aLat aLng).altitude ≤ -6) := by
  simp only [flightVisiblePositions]
  split_ifs with harr
  · refine iff_of_false (by simp) ?_
    rintro ⟨-, h2⟩
    exact absurd harr (not_lt.mpr h2)
  · rw [flightVisibleBase_eq_nil_iff]
    simp [not_lt.mp harr]

/-- C3.  The orchestrator classifies none exactly when every path sample
and the arrival sample fail the civil twilight visibility filter; whenever
at least one sample survives, the trajectory reduction is used and it never
produces none. -/
theorem calculateFlightSunData_none_iff (suncalc : ℝ → ℝ → ℝ → ℝ × ℝ)
    (geoInterp : ℝ × ℝ → ℝ × ℝ → ℝ → ℝ × ℝ) (dLat dLng aLat aLng depT dur : ℝ) :
    (calculateFlightSunData suncalc geoInterp dLat dLng aLat aLng depT dur).scenicSide =
        ScenicSide.none ↔
      ((∀ i < 20, flightSampleAltitude suncalc geoInterp dLat dLng aLat aLng depT dur i ≤ -6) ∧
        (getSunPosition suncalc (depT + dur * 60 * 60 * 1000) aLat aLng).altitude ≤ -6) := by
  simp only [calculateFlightSunData]
  split_ifs with hv
  · exact iff_of_true rfl
      ((flightVisiblePositions_eq_nil_iff suncalc geoInterp dLat dLng aLat aLng depT dur).mp hv)
  · refine iff_of_false ?_ ?_
    · exact determineScenicSideFromTrajectory_ne_none _
    · intro hr
      exact hv
        ((flightVisiblePositions_eq_nil_iff suncalc geoInterp dLat dLng aLat aLng depT dur).mpr hr)

/-- C7.  When the departure-location sunrise or sunset is null (polar day
or night), the orchestrator still produces a well-defined instant for the
corresponding field: the departure instant itself, unless an existing
arrival-location event lying strictly inside the flight window replaces
it. -/
theorem calculateFlightSunData_polar_fallback (suncalc : ℝ → ℝ → ℝ → ℝ × ℝ)
    (geoInterp : ℝ × ℝ → ℝ × ℝ → ℝ → ℝ × ℝ) (dLat dLng aLat aLng depT dur : ℝ) :
    ((calculateSunriseSunset dLat dLng depT).sunrise = Option.none →
      (calculateFlightSunData suncalc geoInterp dLat dLng aLat aLng depT dur).sunriseTime =
          depT ∨
        ∃ t, (calculateSunriseSunset aLat aLng (depT + dur * 60 * 60 * 1000)).sunrise = some t ∧
          depT < t ∧ t < depT + dur * 60 * 60 * 1000 ∧
          (calculateFlightSunData suncalc geoInterp dLat dLng aLat aLng depT dur).sunriseTime =
            t) ∧
    ((calculateSunriseSunset dLat dLng depT).sunset = Option.none →
      (calculateFlightSunData suncalc geoInterp dLat dLng aLat aLng depT dur).sunsetTime =
          depT ∨
        ∃ t, (calculateSunriseSunset aLat aLng (depT + dur * 60 * 60 * 1000)).sunset = some t ∧
          depT < t ∧ t < depT + dur * 60 * 60 * 1000 ∧
          (calculateFlightSunData suncalc geoInterp dLat dLng aLat aLng depT dur).sunsetTime =
            t) := by
  obtain ⟨hbr, hbs⟩ :=
    calculateFlightSunData_sunTimes suncalc geoInterp dLat dLng aLat aLng depT dur
  constructor
  · intro hnone
    rw [hbr]
    by_cases hd : getDate (depT + dur * 60 * 60 * 1000) ≠ getDate depT
    · rw [selectSunTimes_diffDate _ _ _ _ hd]
      rw [hnone]
      cases hopt :
          (calculateSunriseSunset aLat aLng (depT + dur * 60 * 60 * 1000)).sunrise with
      | none =>
        left
        simp [overrideIfBetween]
      | some t =>
        simp only [overrideIfBetween, Option.getD_none]
        split_ifs with hb
        · exact Or.inr ⟨t, rfl, hb.1, hb.2, rfl⟩
        · left
          rfl
    · rw [selectSunTimes_sameDate _ _ _ _ (not_not.mp hd)]
      rw [hnone]
      left
      rfl
  · intro hnone
    rw [hbs]
    by_cases hd : getDate (depT + dur * 60 * 60 * 1000) ≠ getDate depT
    · rw [selectSunTimes_diffDate _ _ _ _ hd]
      rw [hnone]
      cases hopt :
          (calculateSunriseSunset aLat aLng (depT + dur * 60 * 60 * 1000)).sunset with
      | none =>
        left
        simp [overrideIfBetween]
      | some t =>
        simp only [overrideIfBetween, Option.getD_none]
        split_ifs with hb
        · exact Or.inr ⟨t, rfl, hb.1, hb.2, rfl⟩
        · left
          rfl
    · rw [selectSunTimes_sameDate _ _ _ _ (not_not.mp hd)]
      rw [hnone]
      left
      rfl

theorem sunTime_eq_none_iff (lat lon : ℝ) (y m d : ℤ) (t : ℝ) (b : Bool) :
    sunTime lat lon y m d t b = Option.none ↔
      1 < sunCosH lat t ∨ sunCosH lat t < -1 := by
  unfold sunTime
  split_ifs with h1 h2
  · simp [h1]
  · simp [h2]
  · simp [h1, h2]

theorem floor_dec21 : ⌊(1703160000000 : ℝ) / 86400000⌋ = 19712 := by
  rw [Int.floor_eq_iff]
  constructor
  · push_cast
    rw [le_div_iff (by norm_num : (0 : ℝ) < 86400000)]
    norm_num
  · push_cast
    rw [div_lt_iff (by norm_num : (0 : ℝ) < 86400000)]
    norm_num

theorem calcDateTriple_dec21 : calcDateTriple 1703160000000 = (2023, 12, 21) := by
  unfold calcDateTriple
  rw [floor_dec21]
  decide

theorem dayOfYear_dec21 : dayOfYear 2023 12 21 = 355 := by decide

theorem sunTRise_dec21 : sunTRise 0 1703160000000 = 355.25 := by
  simp only [sunTRise, calcDateTriple_dec21]
  rw [dayOfYear_dec21]
  norm_num

theorem sunTSet_dec21 : sunTSet 0 1703160000000 = 355.75 := by
  simp only [sunTSet, calcDateTriple_dec21]
  rw [dayOfYear_dec21]
  norm_num

/-- In the December window of interest the normalized true longitude lies
within a few degrees of 270, using only the crude bound that both sine
terms lie between -1 and 1. -/
theorem sunL_near270 {t : ℝ} (hM1 : 346.84 ≤ sunM t) (hM2 : sunM t ≤ 347.34) :
    267.5 ≤ sunL t ∧ sunL t ≤ 272 := by
  have hs1 := Real.neg_one_le_sin (sunM t * π / 180)
  have hs1b := Real.sin_le_one (sunM t * π / 180)
  have hs2 := Real.neg_one_le_sin (2 * sunM t * π / 180)
  have hs2b := Real.sin_le_one (2 * sunM t * π / 180)
  simp only [sunL]
  set L0 := sunM t + 1.916 * Real.sin (sunM t * π / 180) +
    0.02 * Real.sin (2 * sunM t * π / 180) + 282.634 with hL0def
  clear_value L0
  have hlo : 627.53 ≤ L0 := by rw [hL0def]; linarith
  have hhi : L0 ≤ 631.92 := by rw [hL0def]; linarith
  have hq : (0 : ℝ) ≤ L0 / 360 := div_nonneg (by linarith) (by norm_num)
  have hfl : ⌊L0 / 360⌋ = 1 := by
    rw [Int.floor_eq_iff]
    constructor
    · push_cast
      rw [le_div_iff (by norm_num : (0 : ℝ) < 360)]
      linarith
    · push_cast
      rw [div_lt_iff (by norm_num : (0 : ℝ) < 360)]
      linarith
  have hmod : jsMod L0 360 = L0 - 360 := by
    unfold jsMod
    rw [jsTrunc_nonneg_eq_floor hq, hfl]
    push_cast
    ring
  rw [hmod, if_neg (show ¬ (L0 - 360 < 0) by linarith)]
  constructor <;> linarith

set_option maxHeartbeats 1000000 in
/-- With the true longitude within 2.5 degrees of 270 (deep southern solar
declination), the hour-angle cosine at latitude 78 exceeds 1: polar
night. -/
theorem sunCosH_gt_one_of_L {t : ℝ} (hL1 : 267.5 ≤ sunL t) (hL2 : sunL t ≤ 272) :
    1 < sunCosH 78 t := by
  have hpi1 : (3.1415 : ℝ) < π := by
    have := Real.pi_gt_3141592
    linarith
  have hpi2 : π < 3.1416 := by
    have := Real.pi_lt_3141593
    linarith
  have hθub : sunL t * π / 180 - 3 * π / 2 ≤ 0.0437 := by
    have h1 : sunL t * π ≤ 272 * π := mul_le_mul_of_nonneg_right hL2 Real.pi_pos.le
    linarith
  have hθlb : -0.0437 ≤ sunL t * π / 180 - 3 * π / 2 := by
    have h1 : 267.5 * π ≤ sunL t * π := mul_le_mul_of_nonneg_right hL1 Real.pi_pos.le
    linarith
  set θ := sunL t * π / 180 - 3 * π / 2 with hθdef
  clear_value θ
  have hθabs : |θ| ≤ 0.0437 := abs_le.mpr ⟨hθlb, hθub⟩
  have hsinL : Real.sin (sunL t * π / 180) = -Real.cos θ := by
    have hrw : sunL t * π / 180 = (θ + π / 2) + π := by rw [hθdef]; ring
    rw [hrw, Real.sin_add_pi, Real.sin_add_pi_div_two]
  have hθ2 : θ ^ 2 ≤ 0.00191 := by
    nlinarith [sq_abs θ, abs_nonneg θ, mul_self_nonneg (0.0437 - |θ|)]
  have hθ4 : |θ| ^ 4 ≤ 0.0000037 := by
    calc |θ| ^ 4 ≤ 0.0437 ^ 4 := pow_le_pow_left (abs_nonneg θ) hθabs 4
    _ ≤ 0.0000037 := by norm_num
  have hb := Real.cos_bound (le_trans hθabs (by norm_num) : |θ| ≤ 1)
  rw [abs_le] at hb
  have hcosθ : 0.999 ≤ Real.cos θ := by linarith [hb.1]
  have hsd : sunSinDec t ≤ -0.3973 := by
    unfold sunSinDec
    rw [hsinL]
    linarith
  have hsd2 : -0.39782 ≤ sunSinDec t := by
    unfold sunSinDec
    have := Real.neg_one_le_sin (sunL t * π / 180)
    linarith
  have hcd1 : sunCosDec t ≤ 1 := Real.cos_le_one _
  have hcd0 : 0 < sunCosDec t := by
    unfold sunCosDec
    rw [Real.cos_arcsin]
    apply Real.sqrt_pos.mpr
    nlinarith [mul_nonneg (show (0 : ℝ) ≤ -sunSinDec t by linarith)
      (show (0 : ℝ) ≤ sunSinDec t + 0.39782 by linarith)]
  have hsin78 : 0.9779 ≤ Real.sin (78 * π / 180) := by
    rw [show (78 : ℝ) * π / 180 = π / 2 - π / 15 by ring, Real.sin_pi_div_two_sub]
    have hx : |π / 15| ≤ 0.20944 := by
      rw [abs_of_pos (by positivity)]
      linarith
    have hb2 := Real.cos_bound (le_trans hx (by norm_num) : |π / 15| ≤ 1)
    rw [abs_le] at hb2
    have h0 : π / 15 ≤ 0.20944 := by linarith
    have h2 : (π / 15) ^ 2 ≤ 0.20944 ^ 2 := by
      have h00 : (0 : ℝ) ≤ π / 15 := by positivity
      nlinarith
    have h4 : |π / 15| ^ 4 ≤ 0.20944 ^ 4 := pow_le_pow_left (abs_nonneg _) hx 4
    nlinarith [hb2.1]
  have hsin78b : Real.sin (78 * π / 180) ≤ 1 := Real.sin_le_one _
  have hcos78u : Real.cos (78 * π / 180) ≤ 0.2095 := by
    rw [show (78 : ℝ) * π / 180 = π / 2 - π / 15 by ring, Real.cos_pi_div_two_sub]
    have h0 : (0 : ℝ) < π / 15 := by positivity
    have := Real.sin_lt h0
    linarith
  have hcos78l : 0 < Real.cos (78 * π / 180) := by
    apply Real.cos_pos_of_mem_Ioo
    rw [Set.mem_Ioo]
    constructor
    · linarith [Real.pi_pos]
    · linarith [Real.pi_pos]
  have hcz1 : -0.0146 ≤ Real.cos (90.833 * π / 180) := by
    rw [show (90.833 : ℝ) * π / 180 = 0.833 * π / 180 + π / 2 by ring,
      Real.cos_add_pi_div_two]
    have h0 : (0 : ℝ) < 0.833 * π / 180 := by positivity
    have hlt := Real.sin_lt h0
    have hub : 0.833 * π / 180 ≤ 0.0146 := by linarith
    linarith
  unfold sunCosH
  rw [lt_div_iff (mul_pos hcd0 hcos78l)]
  have hnum : 0.373 ≤ Real.cos (90.833 * π / 180) -
      sunSinDec t * Real.sin (78 * π / 180) := by
    nlinarith [mul_nonneg (show (0 : ℝ) ≤ -sunSinDec t - 0.3973 by linarith)
      (show (0 : ℝ) ≤ Real.sin (78 * π / 180) - 0.9779 by linarith)]
  have hden : sunCosDec t * Real.cos (78 * π / 180) ≤ 0.2095 := by
    nlinarith [mul_le_mul hcd1 hcos78u hcos78l.le zero_le_one]
  linarith

/-- At 78 degrees north on 2023-12-21 (noon UTC, longitude 0) both the
sunrise and the sunset computation report no event: polar night. -/
theorem polarNoonDec21_none :
    calculateSunriseSunset 78 0 1703160000000 = ⟨Option.none, Option.none⟩ := by
  have hM1lo : 346.84 ≤ sunM (sunTRise 0 1703160000000) := by
    rw [sunTRise_dec21]
    unfold sunM
    norm_num
  have hM1hi : sunM (sunTRise 0 1703160000000) ≤ 347.34 := by
    rw [sunTRise_dec21]
    unfold sunM
    norm_num
  have hM2lo : 346.84 ≤ sunM (sunTSet 0 1703160000000) := by
    rw [sunTSet_dec21]
    unfold sunM
    norm_num
  have hM2hi : sunM (sunTSet 0 1703160000000) ≤ 347.34 := by
    rw [sunTSet_dec21]
    unfold sunM
    norm_num
  obtain ⟨hA1, hA2⟩ := sunL_near270 hM1lo hM1hi
  obtain ⟨hB1, hB2⟩ := sunL_near270 hM2lo hM2hi
  have hc1 := sunCosH_gt_one_of_L hA1 hA2
  have hc2 := sunCosH_gt_one_of_L hB1 hB2
  have e1 : sunTime 78 0 (calcDateTriple 1703160000000).1 (calcDateTriple 1703160000000).2.1
      (calcDateTriple 1703160000000).2.2 (sunTRise 0 1703160000000) true = Option.none := by
    unfold sunTime
    rw [if_pos hc1]
  have e2 : sunTime 78 0 (calcDateTriple 1703160000000).1 (calcDateTriple 1703160000000).2.1
      (calcDateTriple 1703160000000).2.2 (sunTSet 0 1703160000000) false = Option.none := by
    unfold sunTime
    rw [if_pos hc2]
  unfold calculateSunriseSunset
  rw [e1, e2]

/-- C6.  calculateSunriseSunset returns null for sunrise or sunset exactly
when the hour-angle cosine for the corresponding event falls outside the
closed interval from -1 to 1; in particular at latitude 78 north on
2023-12-21 it returns null for both (polar night). -/
theorem calculateSunriseSunset_none_iff :
    (∀ lat lon ms : ℝ,
      ((calculateSunriseSunset lat lon ms).sunrise = Option.none ↔
        1 < sunCosH lat (sunTRise lon ms) ∨ sunCosH lat (sunTRise lon ms) < -1) ∧
      ((calculateSunriseSunset lat lon ms).sunset = Option.none ↔
        1 < sunCosH lat (sunTSet lon ms) ∨ sunCosH lat (sunTSet lon ms) < -1)) ∧
    (calculateSunriseSunset 78 0 1703160000000).sunrise = Option.none ∧
    (calculateSunriseSunset 78 0 1703160000000).sunset = Option.none := by
  refine ⟨?_, by rw [polarNoonDec21_none], by rw [polarNoonDec21_none]⟩
  intro lat lon ms
  constructor
  · exact sunTime_eq_none_iff lat lon (calcDateTriple ms).1 (calcDateTriple ms).2.1
      (calcDateTriple ms).2.2 (sunTRise lon ms) true
  · exact sunTime_eq_none_iff lat lon (calcDateTriple ms).1 (calcDateTriple ms).2.1
      (calcDateTriple ms).2.2 (sunTSet lon ms) false

theorem getDate_zero : getDate 0 = 1 := by
  unfold getDate calcDateTriple
  have h : ⌊(0 : ℝ) / 86400000⌋ = 0 := by norm_num
  rw [h]
  decide

theorem getDate_ten_hours : getDate 36000000 = 1 := by
  unfold getDate calcDateTriple
  have h : ⌊(36000000 : ℝ) / 86400000⌋ = 0 := by
    rw [Int.floor_eq_iff]
    constructor
    · push_cast
      positivity
    · push_cast
      rw [div_lt_iff (by norm_num : (0 : ℝ) < 86400000)]
      norm_num
  rw [h]
  decide

theorem getDate_thirty_hours : getDate 108000000 = 2 := by
  unfold getDate calcDateTriple
  have h : ⌊(108000000 : ℝ) / 86400000⌋ = 1 := by
    rw [Int.floor_eq_iff]
    constructor
    · push_cast
      rw [le_div_iff (by norm_num : (0 : ℝ) < 86400000)]
      norm_num
    · push_cast
      rw [div_lt_iff (by norm_num : (0 : ℝ) < 86400000)]
      norm_num
  rw [h]
  decide

/-- C2 counterexample.  A ten-hour flight entirely inside one calendar day:
the arrival-location sunrise (instant 5) lies strictly between the
departure instant 0 and the arrival instant 36000000, yet the selection
logic of calculateFlightSunData keeps the departure value -1, because the
override branch only runs when the day of month changes.  So the override
does not happen if and only if the event is strictly inside the window. -/
theorem selectSunTimes_sameDate_ignoresArrival :
    getDate (36000000 : ℝ) = getDate 0 ∧
    (0 : ℝ) < 5 ∧ (5 : ℝ) < 36000000 ∧
    selectSunTimes ⟨some (-1), Option.none⟩ ⟨some 5, Option.none⟩ 0 36000000 = (-1, 0) := by
  have hd : getDate (36000000 : ℝ) = getDate 0 := by
    rw [getDate_ten_hours, getDate_zero]
  refine ⟨hd, by norm_num, by norm_num, ?_⟩
  rw [selectSunTimes_sameDate _ _ _ _ hd]
  rfl

/-- C2 as amended.  The reported sunrise and sunset default to the
departure-location values (or the departure instant when null) and are
overridden by the arrival-location event if and only if the day of month
of the arrival instant differs from that of the departure instant AND the
event lies strictly between the departure and arrival instants; on
same-day flights the departure defaults are always kept.  The final
conjunct ties the selection function to calculateFlightSunData. -/
theorem selectSunTimes_policy :
    (∀ (dT aT : SunTimes) (dep arr : ℝ),
      (getDate arr = getDate dep →
        selectSunTimes dT aT dep arr = (dT.sunrise.getD dep, dT.sunset.getD dep)) ∧
      (getDate arr ≠ getDate dep →
        (∀ t, aT.sunrise = some t → dep < t → t < arr →
          (selectSunTimes dT aT dep arr).1 = t) ∧
        ((∀ t, aT.sunrise = some t → ¬(dep < t ∧ t < arr)) →
          (selectSunTimes dT aT dep arr).1 = dT.sunrise.getD dep) ∧
        (∀ t, aT.sunset = some t → dep < t → t < arr →
          (selectSunTimes dT aT dep arr).2 = t) ∧
        ((∀ t, aT.sunset = some t → ¬(dep < t ∧ t < arr)) →
          (selectSunTimes dT aT dep arr).2 = dT.sunset.getD dep))) ∧
    (∀ (suncalc : ℝ → ℝ → ℝ → ℝ × ℝ) (geoInterp : ℝ × ℝ → ℝ × ℝ → ℝ → ℝ × ℝ)
        (dLat dLng aLat aLng depT dur : ℝ),
      (calculateFlightSunData suncalc geoInterp dLat dLng aLat aLng depT dur).sunriseTime =
        (selectSunTimes (calculateSunriseSunset dLat dLng depT)
          (calculateSunriseSunset aLat aLng (depT + dur * 60 * 60 * 1000)) depT
          (depT + dur * 60 * 60 * 1000)).1 ∧
      (calculateFlightSunData suncalc geoInterp dLat dLng aLat aLng depT dur).sunsetTime =
        (selectSunTimes (calculateSunriseSunset dLat dLng depT)
          (calculateSunriseSunset aLat aLng (depT + dur * 60 * 60 * 1000)) depT
          (depT + dur * 60 * 60 * 1000)).2) := by
  constructor
  · intro dT aT dep arr
    constructor
    · intro hd
      exact selectSunTimes_sameDate dT aT dep arr hd
    · intro hd
      have hpair := selectSunTimes_diffDate dT aT dep arr hd
      refine ⟨?_, ?_, ?_, ?_⟩
      · intro t ht h1 h2
        rw [hpair, ht]
        show (if dep < t ∧ t < arr then t else dT.sunrise.getD dep) = t
        rw [if_pos ⟨h1, h2⟩]
      · intro hno
        rw [hpair]
        show overrideIfBetween (dT.sunrise.getD dep) aT.sunrise dep arr = dT.sunrise.getD dep
        cases hopt : aT.sunrise with
        | none => rfl
        | some t =>
          show (if dep < t ∧ t < arr then t else dT.sunrise.getD dep) = dT.sunrise.getD dep
          rw [if_neg (hno t hopt)]
      · intro t ht h1 h2
        rw [hpair, ht]
        show (if dep < t ∧ t < arr then t else dT.sunset.getD dep) = t
        rw [if_pos ⟨h1, h2⟩]
      · intro hno
        rw [hpair]
        show overrideIfBetween (dT.sunset.getD dep) aT.sunset dep arr = dT.sunset.getD dep
        cases hopt : aT.sunset with
        | none => rfl
        | some t =>
          show (if dep < t ∧ t < arr then t else dT.sunset.getD dep) = dT.sunset.getD dep
          rw [if_neg (hno t hopt)]
  · intro suncalc geoInterp dLat dLng aLat aLng depT dur
    exact calculateFlightSunData_sunTimes suncalc geoInterp dLat dLng aLat aLng depT dur

/-- Witness for the amended C2: concrete same-day and cross-day
selections, and the tie to the orchestrator at concrete inputs. -/
theorem selectSunTimes_policy_witness :
    selectSunTimes ⟨some 1, some 2⟩ ⟨some 5, Option.none⟩ 0 36000000 = (1, 2) ∧
    (selectSunTimes ⟨some 1, some 2⟩ ⟨some 5, Option.none⟩ 0 108000000).1 = 5 ∧
    (selectSunTimes ⟨some 1, some 2⟩ ⟨some 5, Option.none⟩ 0 108000000).2 = 2 ∧
    (calculateFlightSunData (fun _ _ _ => (0, 0)) (fun _ _ t => (t, t)) 40 (-73) 34 (-118)
        0 10).sunriseTime =
      (selectSunTimes (calculateSunriseSunset 40 (-73) 0)
        (calculateSunriseSunset 34 (-118) (0 + 10 * 60 * 60 * 1000)) 0
        (0 + 10 * 60 * 60 * 1000)).1 := by
  have hd1 : getDate (36000000 : ℝ) = getDate 0 := by
    rw [getDate_ten_hours, getDate_zero]
  have hd2 : getDate (108000000 : ℝ) ≠ getDate 0 := by
    rw [getDate_thirty_hours, getDate_zero]
    decide
  refine ⟨?_, ?_, ?_, ?_⟩
  · exact (selectSunTimes_policy.1 ⟨some 1, some 2⟩ ⟨some 5, Option.none⟩ 0 36000000).1 hd1
  · exact ((selectSunTimes_policy.1 ⟨some 1, some 2⟩ ⟨some 5, Option.none⟩ 0
      108000000).2 hd2).1 5 rfl (by norm_num) (by norm_num)
  · have h := ((selectSunTimes_policy.1 ⟨some 1, some 2⟩ ⟨some 5, Option.none⟩ 0
      108000000).2 hd2).2.2.2 (fun t ht => by simp at ht)
    simpa using h
  · exact (selectSunTimes_policy.2 (fun _ _ _ => (0, 0)) (fun _ _ t => (t, t)) 40 (-73) 34
      (-118) 0 10).1

/-- Witness for C7: at 78 degrees north on 2023-12-21 the departure sunrise
is null (polar night), and the orchestrator still reports a well-defined
sunrise instant. -/
theorem calculateFlightSunData_polar_fallback_witness :
    (calculateSunriseSunset 78 0 1703160000000).sunrise = Option.none ∧
    ((calculateFlightSunData (fun _ _ _ => (0, 0)) (fun _ _ t => (t, t)) 78 0 40 (-70)
        1703160000000 1).sunriseTime = 1703160000000 ∨
      ∃ t, (calculateSunriseSunset 40 (-70) (1703160000000 + 1 * 60 * 60 * 1000)).sunrise =
          some t ∧ 1703160000000 < t ∧ t < 1703160000000 + 1 * 60 * 60 * 1000 ∧
        (calculateFlightSunData (fun _ _ _ => (0, 0)) (fun _ _ t => (t, t)) 78 0 40 (-70)
          1703160000000 1).sunriseTime = t) := by
  have hn : (calculateSunriseSunset 78 0 1703160000000).sunrise = Option.none := by
    rw [polarNoonDec21_none]
  exact ⟨hn, (calculateFlightSunData_polar_fallback (fun _ _ _ => (0, 0))
    (fun _ _ t => (t, t)) 78 0 40 (-70) 1703160000000 1).1 hn⟩

end
